import Mathlib

/-
Shallow embedding of the chat client in src/frontend/src/components/Chat.jsx
(the first, authoritative variant of the file).

Modelling conventions:
* JavaScript strings are Lean `String` (or `List Char` where character-level
  reasoning is needed, as in the regex model and the reveal animation).
* A JSON field that may be absent is `Option String`; JavaScript truthiness of
  such a value (`undefined`/`null` and the empty string are falsy) is made
  explicit in `jsOrStr` / `jsOrOpt`.
* The `fetch` response body is a one-shot stream: once `res.json()` or
  `res.text()` has started reading it, any later read rejects.  This platform
  behaviour is reflected in `errText` below.
* React state updates are modelled as pure state transitions; `sendMessage`
  takes the outcome of the awaited network call as an explicit argument.
-/

/-- The JavaScript whitespace class used by `String.prototype.trim` and by the
regex class `\s`: ASCII whitespace plus NBSP, BOM and the two Unicode line
separators.  (The remaining Unicode space separators matched by JS are not
needed for any input considered here.) -/
def isJsWhitespace (c : Char) : Bool :=
  c = ' ' || c = '\t' || c = '\n' || c = '\r' ||
  c = Char.ofNat 0x0b || c = Char.ofNat 0x0c ||
  c = Char.ofNat 0xa0 || c = Char.ofNat 0xfeff ||
  c = Char.ofNat 0x2028 || c = Char.ofNat 0x2029

/-- JavaScript line terminators; the regex metacharacter `.` matches every
character except these. -/
def isLineTerminator (c : Char) : Bool :=
  c = '\n' || c = '\r' || c = Char.ofNat 0x2028 || c = Char.ofNat 0x2029

/-- `s.trim()`: remove leading and trailing JS whitespace. -/
def jsTrim (s : String) : String :=
  (((s.toList.dropWhile isJsWhitespace).reverse.dropWhile
      isJsWhitespace).reverse).asString

/-- `a || b` where `a` is a string-valued JSON field that may be absent and `b`
is a string: the left operand is used exactly when it is truthy, i.e. present
and non-empty. -/
def jsOrStr : Option String → String → String
  | some s, b => if s = "" then b else s
  | none, b => b

/-- `a || b` where both operands are string-or-null values. -/
def jsOrOpt : Option String → Option String → Option String
  | some s, b => if s = "" then b else some s
  | none, b => b

/-- The optional fields of a successful `/chat` JSON response that
`sendMessage` reads (line 119-121 of Chat.jsx). -/
structure RespData where
  response_content : Option String
  response : Option String
  thread_id : Option String
  threadId : Option String
deriving DecidableEq

/-- `const botText = data.response_content || data.response || 'No response'`
(line 120). -/
def botText (d : RespData) : String :=
  jsOrStr d.response_content (jsOrStr d.response "No response")

/-- `data.thread_id || data.threadId || null` (line 121). -/
def returnedThreadId (d : RespData) : Option String :=
  jsOrOpt d.thread_id (jsOrOpt d.threadId none)

/-- `if (returnedThreadId) setThreadId(returnedThreadId)` (lines 122-124):
the stored identifier changes only when the resolved value is truthy. -/
def newThreadId (d : RespData) (prior : Option String) : Option String :=
  match returnedThreadId d with
  | some t => if t = "" then prior else some t
  | none => prior

/-- A non-2xx `fetch` response as observed by the error branch of
`sendMessage` (lines 111-117): whether the body parses as JSON, the `detail`
field of that JSON when it exists, the raw body text, and the HTTP status
text. -/
structure ErrResponse where
  isJson : Bool
  detail : Option String
  bodyText : String
  statusText : String
deriving DecidableEq

/-- The `errText` computed by lines 112-116:

  let errText = ''
  try \x7b errText = (await res.json()).detail || JSON.stringify(await res.json()) \x7d
  catch (e) \x7b try \x7b errText = await res.text() \x7d catch (e2) \x7b errText = res.statusText \x7d \x7d

The first `res.json()` consumes the body stream.  Hence the second
`res.json()` (reached whenever `.detail` is absent or falsy) always rejects,
and the `res.text()` in the catch also rejects — the body was already read,
whether the first parse succeeded or failed.  So the raw body text is
unreachable, and every fallback lands on `res.statusText`. -/
def errText (r : ErrResponse) : String :=
  if r.isJson then
    match r.detail with
    | some d => if d = "" then r.statusText else d
    | none => r.statusText
  else r.statusText

/-- `throw new Error(errText || 'Server error')` (line 117). -/
def errMessage (r : ErrResponse) : String :=
  if errText r = "" then "Server error" else errText r

/-- The possible outcomes of the awaited network exchange inside the `try`
block: a parsed 2xx JSON body, a non-2xx response, or a rejection of `fetch`
or of `res.json()` itself, carrying the thrown error's `message`. -/
inductive FetchOutcome
  | success (data : RespData)
  | httpError (r : ErrResponse)
  | networkError (message : String)
deriving DecidableEq

/-- The text of the assistant-origin message appended after the call
resolves: `botText` on success, `'Error: ' + (err.message || 'unknown
error')` on any caught error (line 128); for an HTTP error the thrown
message is `errMessage`. -/
def botTextFor : FetchOutcome → String
  | .success d => botText d
  | .httpError r => "Error: " ++ errMessage r
  | .networkError m => "Error: " ++ (if m = "" then "unknown error" else m)

/-- The thread identifier after the call resolves: updated only on success
(lines 121-124); the catch path never touches it. -/
def threadAfter (prior : Option String) : FetchOutcome → Option String
  | .success d => newThreadId d prior
  | .httpError _ => prior
  | .networkError _ => prior

/-- The `from` field of a transcript message. -/
inductive Origin
  | user
  | bot
deriving DecidableEq

/-- A transcript message `\x7b from, text \x7d` (the `id` field is a random
render key and is not modelled). -/
structure Msg where
  «from» : Origin
  text : String
deriving DecidableEq

/-- The React state of the `Chat` component that `sendMessage` touches. -/
structure ChatState where
  messages : List Msg
  input : String
  loading : Bool
  threadId : Option String
deriving DecidableEq

/-- The state of `sendMessage` at the point where the `fetch` has been issued
but has not yet resolved (lines 97-102): the guard `if (!input.trim()) return`
leaves everything unchanged; otherwise the input buffer is cleared, exactly
one user-origin message holding the trimmed input is appended, and the
loading flag is set. -/
def sendMessagePre (s : ChatState) : ChatState :=
  if jsTrim s.input = "" then s
  else
    { messages := s.messages ++ [⟨Origin.user, jsTrim s.input⟩],
      input := "",
      loading := true,
      threadId := s.threadId }

/-- A complete run of `sendMessage` (lines 97-132), given the outcome of the
awaited exchange.  The boolean records whether the network call was made.
After the call resolves, exactly one assistant-origin message is appended
(success and catch paths alike), the thread identifier is updated per
`threadAfter`, and `finally` clears the loading flag. -/
def sendMessage (s : ChatState) (outcome : FetchOutcome) : ChatState × Bool :=
  if jsTrim s.input = "" then (s, false)
  else
    let pre := sendMessagePre s
    ({ messages := pre.messages ++ [⟨Origin.bot, botTextFor outcome⟩],
       input := pre.input,
       loading := false,
       threadId := threadAfter pre.threadId outcome }, true)

/-- `localStorage.setItem('chat_thread_id', threadId)` (line 83), run on every
change of `threadId`: `setItem` coerces its value to a string, so the null
identifier is stored as the literal string `"null"`.  The argument is the
previous content of the storage slot (`none` = key absent). -/
def saveThreadId (tid : Option String) : Option String → Option String :=
  fun _ => some (match tid with | some s => s | none => "null")

/-- `localStorage.getItem('chat_thread_id') || null` (line 79): an absent key
reads as null, and an empty stored string is falsy, so both load as the
absent identifier. -/
def loadThreadId : Option String → Option String
  | none => none
  | some s => if s = "" then none else some s

/-- Claim C9: for input that trims to nothing, `sendMessage` is a no-op —
the state (transcript, input buffer, loading flag, thread identifier) is
returned unchanged and no network call is made. -/
theorem C9_empty_input_noop (s : ChatState) (outcome : FetchOutcome)
    (h : jsTrim s.input = "") :
    sendMessage s outcome = (s, false) := by
  unfold sendMessage
  rw [if_pos h]

theorem C9_empty_input_noop_witness :
    jsTrim " \t " = "" ∧
      sendMessage ⟨[], " \t ", false, none⟩ (FetchOutcome.networkError "x")
        = (⟨[], " \t ", false, none⟩, false) :=
  ⟨by decide, C9_empty_input_noop ⟨[], " \t ", false, none⟩
    (FetchOutcome.networkError "x") (by decide)⟩

/-- Claim C1: for input with non-empty trim, the state reached before the
network call resolves extends the transcript by exactly one user-origin
message, and the final state extends that by exactly one assistant-origin
message — on success and on failure alike.  Nothing else is appended or
removed. -/
theorem C1_send_appends_one_each (s : ChatState) (outcome : FetchOutcome)
    (h : jsTrim s.input ≠ "") :
    (sendMessagePre s).messages
        = s.messages ++ [⟨Origin.user, jsTrim s.input⟩] ∧
      (sendMessage s outcome).1.messages
        = (sendMessagePre s).messages ++ [⟨Origin.bot, botTextFor outcome⟩] := by
  constructor
  · simp [sendMessagePre, h]
  · simp [sendMessage, sendMessagePre, h]

theorem C1_send_appends_one_each_witness :
    jsTrim " hi " ≠ "" ∧
      (sendMessagePre ⟨[], " hi ", false, none⟩).messages
          = [⟨Origin.user, "hi"⟩] ∧
        (sendMessage ⟨[], " hi ", false, none⟩
            (FetchOutcome.success ⟨none, none, none, none⟩)).1.messages
          = (sendMessagePre ⟨[], " hi ", false, none⟩).messages
              ++ [⟨Origin.bot, "No response"⟩] :=
  ⟨by decide,
    C1_send_appends_one_each ⟨[], " hi ", false, none⟩
      (FetchOutcome.success ⟨none, none, none, none⟩) (by decide)⟩

/-- Claim C2 as stated is false: `||` tests truthiness, not presence, so a
present `response_content` whose value is the empty string is skipped.  With
`response_content = ""` and `response = "Y"` the appended text is `"Y"`, not
the present value `""`. -/
theorem C2_counterexample :
    botText ⟨some "", some "Y", none, none⟩ = "Y" ∧
      botText ⟨some "", some "Y", none, none⟩ ≠ "" := by
  constructor
  · rfl
  · decide

/-- Claim C2 amended: the reply text is resolved in the order
`response_content`, `response`, literal `"No response"`, where a field is
used exactly when it is present with a non-empty value; a present empty
string falls through to the next alternative. -/
theorem C2_amended_resolution (d : RespData) :
    (∀ s, d.response_content = some s → s ≠ "" → botText d = s) ∧
      ((d.response_content = none ∨ d.response_content = some "") →
        ∀ s, d.response = some s → s ≠ "" → botText d = s) ∧
      ((d.response_content = none ∨ d.response_content = some "") →
        (d.response = none ∨ d.response = some "") →
        botText d = "No response") := by
  refine ⟨?_, ?_, ?_⟩
  · intro s hs hne
    simp [botText, jsOrStr, hs, hne]
  · rintro (h | h) s hs hne <;> simp [botText, jsOrStr, h, hs, hne]
  · rintro (h | h) (h2 | h2) <;> simp [botText, jsOrStr, h, h2]

theorem C2_amended_resolution_witness :
    ((some "X" : Option String) = some "X" ∧ "X" ≠ "") ∧
      botText ⟨some "X", some "Y", none, none⟩ = "X" :=
  ⟨⟨rfl, by decide⟩,
    (C2_amended_resolution ⟨some "X", some "Y", none, none⟩).1 "X" rfl
      (by decide)⟩

/-- Claim C7 as stated is false: the error text is not "detail if present,
else raw body text, else status description".  A present but empty `detail`
is falsy, so the code evaluates `JSON.stringify(await res.json())`; that
second body read rejects (the stream was consumed), as does the `res.text()`
fallback, leaving `res.statusText`.  A body with `detail = ""` and status
text `"Unauthorized"` yields `"Error: Unauthorized"`, not `"Error: "` with
the present detail value. -/
theorem C7_counterexample :
    botTextFor (FetchOutcome.httpError ⟨true, some "", "detail empty", "Unauthorized"⟩)
        = "Error: Unauthorized" ∧
      botTextFor (FetchOutcome.httpError ⟨true, some "", "detail empty", "Unauthorized"⟩)
        ≠ "Error: " := by
  constructor
  · rfl
  · decide

/-- Claim C7 amended: the appended error text is `"Error: "` followed by the
`detail` field when the body is JSON with a present non-empty `detail`;
otherwise by the HTTP status text (the raw-body fallback is unreachable
because the body stream is already consumed by the JSON read); and by
`"Server error"` when that status text is empty.  In particular a body with
detail `"bad key"` yields `"Error: bad key"`. -/
theorem C7_amended_error_text (r : ErrResponse) :
    (∀ d, r.isJson = true → r.detail = some d → d ≠ "" →
        botTextFor (FetchOutcome.httpError r) = "Error: " ++ d) ∧
      ((r.isJson = false ∨ r.detail = none ∨ r.detail = some "") →
        r.statusText ≠ "" →
        botTextFor (FetchOutcome.httpError r) = "Error: " ++ r.statusText) ∧
      ((r.isJson = false ∨ r.detail = none ∨ r.detail = some "") →
        r.statusText = "" →
        botTextFor (FetchOutcome.httpError r) = "Error: Server error") := by
  refine ⟨?_, ?_, ?_⟩
  · intro d hj hd hne
    simp [botTextFor, errMessage, errText, hj, hd, hne]
  · rintro (h | h | h) hst <;>
      simp [botTextFor, errMessage, errText, h, hst]
  · rintro (h | h | h) hst <;>
      simp [botTextFor, errMessage, errText, h, hst]

theorem C7_amended_error_text_witness :
    ((true : Bool) = true ∧ (some "bad key" : Option String) = some "bad key" ∧
        "bad key" ≠ "") ∧
      botTextFor (FetchOutcome.httpError ⟨true, some "bad key", "", "Bad Request"⟩)
        = "Error: bad key" :=
  ⟨⟨rfl, rfl, by decide⟩,
    (C7_amended_error_text ⟨true, some "bad key", "", "Bad Request"⟩).1 "bad key"
      rfl rfl (by decide)⟩

/-- Claim C8: the conversation identifier is resolved from `thread_id`, then
`threadId`; when neither field is present no update is performed and the
stored identifier keeps its prior value.  In particular a success response
carrying only `response = "Y"` appends text `"Y"` and leaves the identifier
unchanged. -/
theorem C8_thread_id_resolution (d : RespData) (prior : Option String) :
    (∀ t, d.thread_id = some t → t ≠ "" → newThreadId d prior = some t) ∧
      (d.thread_id = none → ∀ u, d.threadId = some u → u ≠ "" →
        newThreadId d prior = some u) ∧
      (d.thread_id = none → d.threadId = none → newThreadId d prior = prior) ∧
      (d.response_content = none → d.response = some "Y" →
        d.thread_id = none → d.threadId = none →
        botText d = "Y" ∧ newThreadId d prior = prior) := by
  refine ⟨?_, ?_, ?_, ?_⟩
  · intro t ht hne
    simp [newThreadId, returnedThreadId, jsOrOpt, ht, hne]
  · intro h1 u hu hne
    simp [newThreadId, returnedThreadId, jsOrOpt, h1, hu, hne]
  · intro h1 h2
    simp [newThreadId, returnedThreadId, jsOrOpt, h1, h2]
  · intro hrc hr h1 h2
    refine ⟨by simp [botText, jsOrStr, hrc, hr], ?_⟩
    simp [newThreadId, returnedThreadId, jsOrOpt, h1, h2]

theorem C8_thread_id_resolution_witness :
    ((none : Option String) = none ∧ (some "Y" : Option String) = some "Y" ∧
        (none : Option String) = none ∧ (none : Option String) = none) ∧
      botText ⟨none, some "Y", none, none⟩ = "Y" ∧
        newThreadId ⟨none, some "Y", none, none⟩ (some "P") = some "P" :=
  ⟨⟨rfl, rfl, rfl, rfl⟩,
    (C8_thread_id_resolution ⟨none, some "Y", none, none⟩ (some "P")).2.2.2
      rfl rfl rfl rfl⟩

/-- Claim C10 as stated is false: `setItem` stringifies its argument, so
saving the absent identifier stores the literal string `"null"`, and the
startup load then yields the present identifier `"null"`, not the absent
one. -/
theorem C10_counterexample :
    loadThreadId (saveThreadId none none) = some "null" ∧
      loadThreadId (saveThreadId none none) ≠ (none : Option String) := by
  constructor
  · rfl
  · decide

/-- Claim C10 amended: the save/load round trip is the identity for every
present non-empty identifier; saving the absent identifier stores the
literal string `"null"`, which loads back as the present identifier
`"null"`. -/
theorem C10_amended_round_trip :
    (∀ (t : String) (store : Option String), t ≠ "" →
        loadThreadId (saveThreadId (some t) store) = some t) ∧
      ∀ store : Option String,
        loadThreadId (saveThreadId none store) = some "null" := by
  constructor
  · intro t store ht
    simp [loadThreadId, saveThreadId, ht]
  · intro store
    rfl

theorem C10_amended_round_trip_witness :
    "T" ≠ "" ∧ loadThreadId (saveThreadId (some "T") none) = some "T" :=
  ⟨by decide, C10_amended_round_trip.1 "T" none (by decide)⟩

/-- The leading literal `\(tool:` of the regex
`/^\(tool:\s*([^\)]+)\)\s*(.*)/i` (Chat.jsx line 44), matched
case-insensitively; returns the remainder of the string on a match. -/
def matchesToolHeader : List Char → Option (List Char)
  | '(' :: c1 :: c2 :: c3 :: c4 :: ':' :: rest =>
    if c1.toLower = 't' && c2.toLower = 'o' && c3.toLower = 'o' && c4.toLower = 'l'
    then some rest else none
  | _ => none

/-- The `Message` component's tool extraction (Chat.jsx lines 44-46):

  const match = m.text.match(/^\(tool:\s*([^\)]+)\)\s*(.*)/i)
  const tool = match ? match[1] : null
  const content = match ? match[2] : m.text

After the header, the quantifiers resolve as follows.  `[^\)]+` cannot cross
a `)`, so the `\)` consumed is the first `)` of the remainder `s`; with `pre`
the part of `s` before that `)`, greedy `\s*` takes the whitespace of `pre`,
backtracking one character when `pre` is all whitespace so that `[^\)]+`
stays non-empty, making group 1 `pre` minus that whitespace.  After the `)`,
greedy `\s*` absorbs the whitespace run and group 2 (`.*`) extends to the
first line terminator, since `.` does not match those.  If `s` has no `)`,
or its first character is `)`, the regex fails and the whole text is the
content with no tool. -/
def extractTool (text : List Char) : Option (List Char) × List Char :=
  match matchesToolHeader text with
  | none => (none, text)
  | some s =>
    let pre := s.takeWhile (fun c => c != ')')
    match s.dropWhile (fun c => c != ')') with
    | [] => (none, text)
    | _ :: tail =>
      if pre.isEmpty then (none, text)
      else
        let ws := pre.takeWhile isJsWhitespace
        let name := if ws.length < pre.length then pre.drop ws.length
                    else pre.drop (pre.length - 1)
        let body := (tail.dropWhile isJsWhitespace).takeWhile
          (fun c => !(isLineTerminator c))
        (some name, body)

theorem takeWhile_append_all {α : Type} {p : α → Bool} {l1 l2 : List α}
    (h : ∀ a ∈ l1, p a = true) :
    (l1 ++ l2).takeWhile p = l1 ++ l2.takeWhile p := by
  induction l1 with
  | nil => simp
  | cons a t ih =>
    simp [h a (by simp), ih (fun b hb => h b (by simp [hb]))]

theorem dropWhile_append_all {α : Type} {p : α → Bool} {l1 l2 : List α}
    (h : ∀ a ∈ l1, p a = true) :
    (l1 ++ l2).dropWhile p = l2.dropWhile p := by
  induction l1 with
  | nil => simp
  | cons a t ih =>
    simp only [List.cons_append, List.dropWhile_cons, h a (by simp)]
    exact ih (fun b hb => h b (by simp [hb]))

theorem takeWhile_all {α : Type} {p : α → Bool} {l : List α}
    (h : ∀ a ∈ l, p a = true) : l.takeWhile p = l := by
  induction l with
  | nil => rfl
  | cons a t ih =>
    simp [h a (by simp), ih (fun b hb => h b (by simp [hb]))]

/-- Claim C3 as stated is false: group 2 of the regex is `.*`, which stops at
a line terminator, so the body is not always the entire remainder of the
string.  On `"(tool: w) a\nb"` the extraction yields tool `"w"` and body
`"a"`, silently dropping `"\nb"`. -/
theorem C3_counterexample :
    extractTool ("(tool: w) a\nb".toList)
        = (some ("w".toList), "a".toList) ∧
      extractTool ("(tool: w) a\nb".toList)
        ≠ (some ("w".toList), "a\nb".toList) := by
  constructor
  · rfl
  · decide

/-- Claim C3 amended: for a string of the form `"(tool: NAME) BODY"` — with
`NAME` non-empty, free of `)` and not starting with whitespace, and `BODY`
not starting with whitespace — the extraction yields tool `NAME` and body
`BODY` truncated at the first line terminator; in particular when `BODY`
contains no line terminator the body is all of `BODY`.  A string that does
not begin with the `"(tool:"` header, or whose remainder after the header
has no closing `)`, passes through whole as the content with no tool
label. -/
theorem C3_amended_extraction :
    (∀ (name body : List Char),
        name ≠ [] →
        (∀ c ∈ name, c ≠ ')') →
        (∀ c ∈ name.take 1, isJsWhitespace c = false) →
        (∀ c ∈ body.take 1, isJsWhitespace c = false) →
        (∀ c ∈ body, isLineTerminator c = false) →
        extractTool
            ('(' :: 't' :: 'o' :: 'o' :: 'l' :: ':' :: ' ' ::
              (name ++ ')' :: ' ' :: body))
          = (some name, body)) ∧
      (∀ text : List Char, matchesToolHeader text = none →
        extractTool text = (none, text)) ∧
      (∀ (text s : List Char), matchesToolHeader text = some s →
        (∀ c ∈ s, c ≠ ')') → extractTool text = (none, text)) := by
  refine ⟨?_, ?_, ?_⟩
  · intro name body hne hnp hnh hbh hbl
    have hdr :
        matchesToolHeader
            ('(' :: 't' :: 'o' :: 'o' :: 'l' :: ':' :: ' ' ::
              (name ++ ')' :: ' ' :: body))
          = some (' ' :: (name ++ ')' :: ' ' :: body)) := rfl
    have hassoc :
        (' ' :: (name ++ ')' :: ' ' :: body))
          = (' ' :: name) ++ (')' :: ' ' :: body) := by simp
    have hall : ∀ c ∈ (' ' :: name), (c != ')') = true := by
      intro c hc
      rcases List.mem_cons.mp hc with h | h
      · subst h; decide
      · exact bne_iff_ne.mpr (hnp c h)
    have htake :
        ((' ' :: name) ++ (')' :: ' ' :: body)).takeWhile (fun c => c != ')')
          = ' ' :: name := by
      rw [takeWhile_append_all hall]
      simp [List.takeWhile_cons]
    have hdrop :
        ((' ' :: name) ++ (')' :: ' ' :: body)).dropWhile (fun c => c != ')')
          = ')' :: ' ' :: body := by
      rw [dropWhile_append_all hall]
      simp [List.dropWhile_cons]
    obtain ⟨n0, nt, hname⟩ : ∃ n0 nt, name = n0 :: nt := by
      cases name with
      | nil => exact absurd rfl hne
      | cons a t => exact ⟨a, t, rfl⟩
    have hsp : isJsWhitespace ' ' = true := by decide
    have hws :
        (' ' :: name).takeWhile isJsWhitespace = [' '] := by
      have h0 : isJsWhitespace n0 = false := hnh n0 (by rw [hname]; simp)
      rw [hname]
      simp [List.takeWhile_cons, hsp, h0]
    have hbody :
        ((' ' :: body).dropWhile isJsWhitespace).takeWhile
            (fun c => !(isLineTerminator c)) = body := by
      have hdw : (' ' :: body).dropWhile isJsWhitespace = body := by
        cases body with
        | nil => simp [List.dropWhile_cons, hsp]
        | cons b bt =>
          have hb : isJsWhitespace b = false := hbh b (by simp)
          simp [List.dropWhile_cons, hsp, hb]
      rw [hdw]
      exact takeWhile_all (fun c hc => by simp [hbl c hc])
    rw [extractTool, hdr]
    simp only [hassoc, htake, hdrop]
    have hpre : (' ' :: name).isEmpty = false := rfl
    simp only [hpre, Bool.false_eq_true, if_false, hws]
    rw [hbody]
    have hlt : ([' '] : List Char).length < (' ' :: name).length := by
      rw [hname]; simp
    rw [if_pos hlt]
    simp
  · intro text h
    rw [extractTool, h]
  · intro text s hdr hall
    have hd : s.dropWhile (fun c => c != ')') = [] := by
      rw [List.dropWhile_eq_nil_iff]
      intro c hc
      exact bne_iff_ne.mpr (hall c hc)
    rw [extractTool, hdr]
    simp only [hd]

theorem C3_amended_extraction_witness :
    ("wikipedia".toList ≠ ([] : List Char)) ∧
      extractTool ('(' :: 't' :: 'o' :: 'o' :: 'l' :: ':' :: ' ' ::
          ("wikipedia".toList ++ ')' :: ' ' :: "The capital is Paris".toList))
        = (some ("wikipedia".toList), "The capital is Paris".toList) :=
  ⟨by decide,
    C3_amended_extraction.1 ("wikipedia".toList) ("The capital is Paris".toList)
      (by decide) (by decide) (by decide) (by decide) (by decide)⟩

/-- The initial `visible` state of `TextGeneration`:
`useState(animate ? '' : text)` (Chat.jsx line 4). -/
def initVisible (text : List Char) (animate : Bool) : List Char :=
  if animate then [] else text

/-- Whether the n-th invocation of `step` happens (Chat.jsx lines 19-30),
counting from 1.  The starter timeout always fires the first step; after a
step the counter holds `i = 2*n`, and the next step is scheduled exactly when
`i < len` (line 23).  Cancellation by unmount or input change is outside a
single uninterrupted run and is not modelled. -/
def stepOccurs (len : Nat) : Nat → Bool
  | 0 => false
  | 1 => true
  | n + 2 => stepOccurs len (n + 1) && decide (2 * (n + 1) < len)

/-- The `visible` value set by the n-th step: `i += 2; setVisible(text.slice(0, i))`
(lines 21-22), so after n steps `i = 2*n` and `visible = text.slice(0, 2*n)`;
`disclosed text 0` is the initial empty state. -/
def disclosed (text : List Char) (n : Nat) : List Char :=
  text.take (2 * n)

/-- The number of steps of a full uninterrupted run of the animation branch. -/
def numSteps (len : Nat) : Nat :=
  max 1 ((len + 1) / 2)

/-- The sequence of values passed to `setVisible` by one uninterrupted run of
the effect (lines 7-33): for `animate = false` (line 8-11) or
`text.length > 1200` (line 16) a single update to the full text; otherwise
the successive slices of the timer loop. -/
def effectVisibleSeq (text : List Char) (animate : Bool) : List (List Char) :=
  if !animate then [text]
  else if 1200 < text.length then [text]
  else (List.range (numSteps text.length)).map (fun n => disclosed text (n + 1))

/-- The trailing-cursor indicator: `visible !== text` (line 38). -/
def cursorShown (visible text : List Char) : Bool :=
  visible != text

theorem stepOccurs_iff (len n : Nat) :
    stepOccurs len (n + 1) = true ↔ (n = 0 ∨ 2 * n < len) := by
  induction n with
  | zero => simp [stepOccurs]
  | succ m ih =>
    rw [stepOccurs]
    rw [Bool.and_eq_true, ih]
    constructor
    · rintro ⟨_, h2⟩
      right
      exact of_decide_eq_true h2
    · rintro (h | h)
      · exact absurd h (Nat.succ_ne_zero m)
      · exact ⟨Or.inr (by omega), decide_eq_true h⟩

theorem length_disclosed (text : List Char) (n : Nat) :
    (disclosed text n).length = min (2 * n) text.length := by
  simp [disclosed]

/-- Claim C4: in the animation branch (`animate = true`,
`0 < text.length ≤ 1200`), every step that occurs strictly grows the
disclosed-prefix length, by exactly 2 except that a final step with an
odd-length target adds only the 1 remaining character; some step reaches the
full length; and once the disclosed length equals the target length no
further step is scheduled. -/
theorem C4_step_increment (text : List Char)
    (h1 : 0 < text.length) (h2 : text.length ≤ 1200) :
    (∀ n, stepOccurs text.length (n + 1) = true →
        (disclosed text n).length < (disclosed text (n + 1)).length ∧
          ((disclosed text (n + 1)).length = (disclosed text n).length + 2 ∨
            ((disclosed text (n + 1)).length = text.length ∧
              text.length % 2 = 1 ∧
              (disclosed text (n + 1)).length = (disclosed text n).length + 1))) ∧
      (∃ N, stepOccurs text.length N = true ∧
        (disclosed text N).length = text.length) ∧
      (∀ n, (disclosed text n).length = text.length →
        stepOccurs text.length (n + 1) = false) := by
  refine ⟨?_, ?_, ?_⟩
  · intro n hn
    rw [stepOccurs_iff] at hn
    rw [length_disclosed, length_disclosed]
    omega
  · refine ⟨(text.length + 1) / 2, ?_, ?_⟩
    · cases h : (text.length + 1) / 2 with
      | zero => omega
      | succ m =>
        rw [stepOccurs_iff]
        omega
    · rw [length_disclosed]
      omega
  · intro n hn
    rw [length_disclosed] at hn
    have : ¬(n = 0 ∨ 2 * n < text.length) := by omega
    rcases Bool.eq_false_or_eq_true (stepOccurs text.length (n + 1)) with h | h
    · exact absurd ((stepOccurs_iff text.length n).mp h) this
    · exact h

theorem C4_step_increment_witness :
    0 < ("hello".toList).length ∧ ("hello".toList).length ≤ 1200 ∧
      ((∀ n, stepOccurs ("hello".toList).length (n + 1) = true →
          (disclosed "hello".toList n).length
              < (disclosed "hello".toList (n + 1)).length ∧
            ((disclosed "hello".toList (n + 1)).length
                  = (disclosed "hello".toList n).length + 2 ∨
              ((disclosed "hello".toList (n + 1)).length
                    = ("hello".toList).length ∧
                ("hello".toList).length % 2 = 1 ∧
                (disclosed "hello".toList (n + 1)).length
                  = (disclosed "hello".toList n).length + 1))) ∧
        (∃ N, stepOccurs ("hello".toList).length N = true ∧
          (disclosed "hello".toList N).length = ("hello".toList).length) ∧
        (∀ n, (disclosed "hello".toList n).length = ("hello".toList).length →
          stepOccurs ("hello".toList).length (n + 1) = false)) :=
  ⟨by decide, by decide,
    C4_step_increment ("hello".toList) (by decide) (by decide)⟩

/-- Claim C5: when `animate` is false, or the target length exceeds 1200, the
effect performs a single `setVisible` whose value is the full text — no
partial slice is ever set; and with `animate = false` even the initial state
already holds the full text. -/
theorem C5_bypass_immediate (text : List Char) (animate : Bool)
    (h : animate = false ∨ 1200 < text.length) :
    effectVisibleSeq text animate = [text] ∧
      (∀ v ∈ effectVisibleSeq text animate, v = text) ∧
      (animate = false → initVisible text animate = text) := by
  have hseq : effectVisibleSeq text animate = [text] := by
    rcases h with h | h
    · simp [effectVisibleSeq, h]
    · rcases animate with _ | _
      · simp [effectVisibleSeq]
      · simp [effectVisibleSeq, h]
  refine ⟨hseq, ?_, ?_⟩
  · intro v hv
    rw [hseq] at hv
    simpa using hv
  · intro ha
    simp [initVisible, ha]

theorem C5_bypass_immediate_witness :
    ((false : Bool) = false ∨ 1200 < ("x".toList).length) ∧
      effectVisibleSeq ("x".toList) false = [("x".toList)] ∧
        (∀ v ∈ effectVisibleSeq ("x".toList) false, v = ("x".toList)) ∧
        ((false : Bool) = false → initVisible ("x".toList) false = ("x".toList)) :=
  ⟨Or.inl rfl, C5_bypass_immediate ("x".toList) false (Or.inl rfl)⟩

/-- Claim C6: in every reachable state of the reveal, the visible text is a
prefix of the target, of length at most the target length, non-decreasing
from each step to the next; and the trailing cursor (`visible !== text`) is
shown exactly when the visible text is a strict prefix of — i.e. differs
from — the target.  The bypass state (full text) shows no cursor. -/
theorem C6_visible_invariants (text : List Char) (n : Nat) :
    disclosed text n <+: text ∧
      (disclosed text n).length ≤ text.length ∧
      (disclosed text n).length ≤ (disclosed text (n + 1)).length ∧
      (cursorShown (disclosed text n) text = true ↔ disclosed text n ≠ text) ∧
      (disclosed text n ≠ text ↔ (disclosed text n).length < text.length) ∧
      cursorShown text text = false := by
  refine ⟨⟨text.drop (2 * n), List.take_append_drop _ _⟩, ?_, ?_, ?_, ?_, ?_⟩
  · rw [length_disclosed]; omega
  · rw [length_disclosed, length_disclosed]; omega
  · exact bne_iff_ne
  · constructor
    · intro hne
      rcases Nat.lt_or_ge (disclosed text n).length text.length with h | h
      · exact h
      · rw [length_disclosed] at h
        exact absurd (by rw [disclosed]; exact List.take_of_length_le (by omega)) hne
    · intro hlt
      intro heq
      rw [heq] at hlt
      exact Nat.lt_irrefl _ hlt
  · simp [cursorShown]
